import Mathlib

/-!
Shallow embedding of the tool-management backend (src/main.py): the sheet
record mapper, identifier generation, listing, creation and status update,
together with the validation layer the web framework applies to request
bodies. Cell values are modelled as text-or-number, mirroring the sheets
client, which converts numeric-looking text to numbers when reading records.
-/

set_option autoImplicit false

namespace ToolMgmt

/-- Value of one spreadsheet cell as surfaced by the sheets client: either a
text cell or a numeric cell. -/
inductive Cell where
  | str (s : String)
  | num (q : ℚ)
deriving DecidableEq, Repr

/-- Decimal digits to a natural number. -/
def digitsToNat (l : List Char) : Nat :=
  l.foldl (fun a c => a * 10 + (c.toNat - 48)) 0

/-- The characters Python's numeric string parsing strips as whitespace, in
their ASCII range: space, tab, line feed, vertical tab, form feed, carriage
return, and the separator control characters 28 to 31. -/
def isPyWs (c : Char) : Bool :=
  c.toNat = 32 || c.toNat = 9 || c.toNat = 10 || c.toNat = 11 || c.toNat = 12 ||
  c.toNat = 13 || (28 ≤ c.toNat && c.toNat ≤ 31)

/-- Strip that whitespace from both ends. -/
def stripPyWs (l : List Char) : List Char :=
  ((l.dropWhile isPyWs).reverse.dropWhile isPyWs).reverse

/-- Consume one optional leading sign; true means negative. -/
def parseSign : List Char → Bool × List Char
  | '+' :: r => (false, r)
  | '-' :: r => (true, r)
  | l => (false, l)

/-- Continue a digit run after an initial digit: further digits, and an
underscore only when a digit follows it (Python's digit-group underscores).
Returns the digits collected so far with underscores removed, and the rest. -/
def digsGo : List Char → List Char → List Char × List Char
  | acc, '_' :: c :: r =>
    if c.isDigit then digsGo (acc ++ [c]) r else (acc, '_' :: c :: r)
  | acc, c :: r =>
    if c.isDigit then digsGo (acc ++ [c]) r else (acc, c :: r)
  | acc, [] => (acc, [])

/-- A digit run: at least one digit, single underscores allowed between
digits. Nothing when the input does not start with a digit. -/
def takeDigs : List Char → Option (List Char × List Char)
  | c :: r => if c.isDigit then some (digsGo [c] r) else none
  | [] => none

/-- Apply a sign to a natural magnitude. -/
def condNeg (neg : Bool) (n : Nat) : ℤ :=
  if neg then -(n : ℤ) else (n : ℤ)

/-- The mantissa of Python's float syntax: digits with an optional dot and
optional fractional digits, or a dot followed by fractional digits. Returns
the value as a numerator and positive denominator, and the unconsumed
rest. -/
def parseMantissa (l : List Char) : Option ((Nat × Nat) × List Char) :=
  match takeDigs l with
  | some (ip, rest) =>
    match rest with
    | '.' :: r2 =>
      match takeDigs r2 with
      | some (fp, r3) =>
        some ((digitsToNat ip * 10 ^ fp.length + digitsToNat fp, 10 ^ fp.length), r3)
      | none => some ((digitsToNat ip, 1), r2)
    | _ => some ((digitsToNat ip, 1), rest)
  | none =>
    match l with
    | '.' :: r2 =>
      match takeDigs r2 with
      | some (fp, r3) => some ((digitsToNat fp, 10 ^ fp.length), r3)
      | none => none
    | _ => none

/-- Model of the numeric-string acceptance of the program's read path —
gspread's numericise trying int() then float() on a cell, and float()
applied at the price conversion — over ASCII text with a finite value:
surrounding whitespace, an optional sign, digits with single underscores
between digits, an optional fractional part, an optional exponent part.
Values are exact rationals, the idealization of Python's binary floats.
The non-finite spellings inf, infinity and nan are recognized separately
by pyNonFinite and lie outside this numeric cell model. -/
def parseDec (s : String) : Option ℚ :=
  let body := stripPyWs s.data
  let sg := parseSign body
  match parseMantissa sg.2 with
  | none => none
  | some (nd, rest) =>
    match rest with
    | [] => some (mkRat (condNeg sg.1 nd.1) nd.2)
    | c :: r =>
      if c = 'e' || c = 'E' then
        let sge := parseSign r
        match takeDigs sge.2 with
        | some (ds, r3) =>
          if r3.isEmpty then
            some (if sge.1 then mkRat (condNeg sg.1 nd.1) (nd.2 * 10 ^ digitsToNat ds)
                  else mkRat (condNeg sg.1 (nd.1 * 10 ^ digitsToNat ds)) nd.2)
          else none
        | none => none
      else none

/-- The non-finite float spellings Python accepts: an optional sign and
then inf, infinity or nan, case-insensitively, whitespace stripped. -/
def pyNonFinite (s : String) : Bool :=
  let body := (parseSign (stripPyWs s.data)).2.map Char.toLower
  body == "inf".data || body == "infinity".data || body == "nan".data

/-- Strings on which Python's int() and float() surely raise: ASCII text
that neither parses as a finite number nor spells a non-finite float.
Non-ASCII digit forms are outside the modelled cell universe. -/
def surelyNonNumeric (s : String) : Bool :=
  s.data.all (fun c => c.toNat ≤ 127) && (parseDec s).isNone && !(pyNonFinite s)

/-- Numeric conversion the sheets client applies to each cell when building
records: numeric-looking text becomes a number, other cells are unchanged. -/
def numericiseCell : Cell → Cell
  | .str s =>
    match parseDec s with
    | some q => .num q
    | none => .str s
  | c => c

/-- Python truthiness of a cell value: empty text and the number zero are
falsy, everything else truthy. -/
def cellTruthy : Cell → Bool
  | .str s => s ≠ ""
  | .num q => q ≠ 0

/-- Python float() applied to a record value: a number is returned as is, a
string must parse as a decimal number, otherwise a ValueError is raised. -/
def floatOfCell : Cell → Except Unit ℚ
  | .num q => .ok q
  | .str s =>
    match parseDec s with
    | some q => .ok q
    | none => .error ()

/-- First index at which the predicate holds, counting from the given start
index (the linear scans of the source: list.index and the row-search loop). -/
def scanIdx {α : Type} (p : α → Bool) : Nat → List α → Option Nat
  | _, [] => none
  | i, x :: xs => if p x then some i else scanIdx p (i + 1) xs

/-- The sheet: an ordered header row of column names and the data rows as a
cell grid, rows positioned below the header in order. -/
structure Sheet where
  header : List String
  rows : List (List Cell)
deriving DecidableEq, Repr

/-- Value a record offers for a column name: the records the client returns
are keyed by the header row, cells numericised, short rows padded with empty
text; a column name absent from the header yields nothing. -/
def recordGet (header : List String) (row : List Cell) (key : String) : Option Cell :=
  match scanIdx (fun c => decide (c = key)) 0 header with
  | none => none
  | some i => some (numericiseCell (row.getD i (.str "")))

/-- Write one cell of the sheet, addressed the way the source addresses it:
1-based row index counting the header as row 1, 1-based column index. The
source only ever writes data rows (row index at least 2). A write past the
current row length extends the row with empty cells. -/
def setPad (l : List Cell) (i : Nat) (v : Cell) : List Cell :=
  if i < l.length then l.set i v
  else l ++ List.replicate (i - l.length) (.str "") ++ [v]

/-- Replace the row at the given 0-based position. -/
def modifyRow (f : List Cell → List Cell) : Nat → List (List Cell) → List (List Cell)
  | _, [] => []
  | 0, r :: rs => f r :: rs
  | i + 1, r :: rs => r :: modifyRow f i rs

/-- update_cell of the row store: 1-based coordinates, header is row 1. -/
def Sheet.updateDataCell (sh : Sheet) (rowIdx1 colIdx1 : Nat) (v : Cell) : Sheet :=
  { sh with rows := modifyRow (fun r => setPad r (colIdx1 - 1) v) (rowIdx1 - 2) sh.rows }

/-- The four status literals of the source's Literal type, in declaration
order: in stock, on loan, under maintenance, disposed. -/
def statusValues : List String :=
  ["在庫", "貸出中", "メンテナンス中", "廃棄済"]

/-- The Literal check the request validation applies to a status value. -/
def validStatus (s : String) : Bool :=
  statusValues.contains s

/-- How the API layer classifies a failing request. -/
inductive ApiError where
  | validation
  | notFound
  | schemaMismatch
  | internal
deriving DecidableEq, Repr

/-- The canonical item from the source's response model: identifier, the
nine payload fields and the derived QR encoding. -/
structure Tool where
  id : String
  name : String
  modelNumber : String
  type : String
  storageLocation : String
  status : String
  purchaseDate : String
  purchasePrice : Option ℚ
  recommendedReplacement : String
  remarks : String
  imageUrl : String
  qr_code_base64 : String
deriving DecidableEq, Repr

/-- A validated create-request body (the source's base model): all string
fields hold their validated values, the price may be null. -/
structure ToolBase where
  name : String
  modelNumber : String
  type : String
  storageLocation : String
  status : String
  purchaseDate : String
  purchasePrice : Option ℚ
  recommendedReplacement : String
  remarks : String
  imageUrl : String
deriving DecidableEq, Repr

/-- A raw create-request body before validation: every field may be absent;
the price may additionally be an explicit null. -/
structure RawPayload where
  name : Option String
  modelNumber : Option String
  type : Option String
  storageLocation : Option String
  status : Option String
  purchaseDate : Option String
  purchasePrice : Option (Option ℚ)
  recommendedReplacement : Option String
  remarks : Option String
  imageUrl : Option String
deriving DecidableEq, Repr

/-- A required field: absent is a validation error. -/
def requireField : Option String → Except Unit String
  | some s => .ok s
  | none => .error ()

/-- The validation the framework applies to a create-request body against
the source's base model: name, modelNumber, type, storageLocation and status
are required; status must be one of the four literals; purchaseDate is a
plain string field defaulting to empty, with no format check; purchasePrice
defaults to zero when absent; the free-text fields default to empty. -/
def validateToolBase (p : RawPayload) : Except Unit ToolBase := do
  let n ← requireField p.name
  let m ← requireField p.modelNumber
  let ty ← requireField p.type
  let loc ← requireField p.storageLocation
  let st ← requireField p.status
  if validStatus st then
    Except.ok
      { name := n, modelNumber := m, type := ty, storageLocation := loc, status := st
        purchaseDate := p.purchaseDate.getD ""
        purchasePrice :=
          match p.purchasePrice with
          | none => some 0
          | some v => v
        recommendedReplacement := p.recommendedReplacement.getD ""
        remarks := p.remarks.getD ""
        imageUrl := p.imageUrl.getD "" }
  else Except.error ()

/-- One element of the listing response: the raw dictionary the list
operation builds per record, fields as the record offers them (possibly
absent), the price forced to a number, plus the freshly computed QR. -/
structure FormattedRecord where
  id : Option Cell
  name : Option Cell
  modelNumber : Option Cell
  type : Option Cell
  storageLocation : Option Cell
  status : Option Cell
  purchaseDate : Option Cell
  purchasePrice : ℚ
  recommendedReplacement : Option Cell
  remarks : Option Cell
  imageUrl : Option Cell
  qr_code_base64 : String
deriving DecidableEq, Repr

/-- The price normalization on read: a missing or falsy price value becomes
zero, a truthy value goes through float(), which fails on non-numeric
text. -/
def readPrice (v : Option Cell) : Except Unit ℚ :=
  match v with
  | none => .ok 0
  | some c => if cellTruthy c then floatOfCell c else .ok 0

/-- Body of the listing loop after the identifier guard: build the response
dictionary for one record; only the price parse can fail. -/
def listLoopBody (qrEnc : Cell → String) (header : List String) (row : List Cell) :
    Except Unit FormattedRecord := do
  let price ← readPrice (recordGet header row "購入価格")
  .ok
    { id := recordGet header row "工具治具ID"
      name := recordGet header row "名称"
      modelNumber := recordGet header row "型番品番"
      type := recordGet header row "種類"
      storageLocation := recordGet header row "保管場所"
      status := recordGet header row "状態"
      purchaseDate := recordGet header row "購入日"
      purchasePrice := price
      recommendedReplacement := recordGet header row "推奨交換時期"
      remarks := recordGet header row "備考"
      imageUrl := recordGet header row "画像URL"
      qr_code_base64 := qrEnc ((recordGet header row "工具治具ID").getD (.str "")) }

/-- Whether the listing loop keeps a record: its identifier value must be
present and truthy. -/
def idTruthy (header : List String) (row : List Cell) : Bool :=
  match recordGet header row "工具治具ID" with
  | none => false
  | some c => cellTruthy c

/-- The listing loop over the data rows: records without a truthy
identifier are skipped, kept records are formatted in order; a formatting
failure aborts the whole call. -/
def getAllToolsGo (qrEnc : Cell → String) (header : List String) :
    List (List Cell) → Except Unit (List FormattedRecord)
  | [] => .ok []
  | row :: rest =>
    if idTruthy header row then do
      let f ← listLoopBody qrEnc header row
      let fs ← getAllToolsGo qrEnc header rest
      .ok (f :: fs)
    else getAllToolsGo qrEnc header rest

/-- The list operation: read all records and run the loop. -/
def getAllTools (qrEnc : Cell → String) (sh : Sheet) :
    Except Unit (List FormattedRecord) :=
  getAllToolsGo qrEnc sh.header sh.rows

/-- model_dump(by_alias=True, exclude_none=True) of a validated body. The
base model declares no aliases, so the keys are the English field names; the
only possibly-None field, the price, is dropped when null. -/
def toolDump (t : ToolBase) : List (String × Cell) :=
  [("name", .str t.name), ("modelNumber", .str t.modelNumber),
   ("type", .str t.type), ("storageLocation", .str t.storageLocation),
   ("status", .str t.status), ("purchaseDate", .str t.purchaseDate)] ++
  (match t.purchasePrice with
   | some q => [("purchasePrice", Cell.num q)]
   | none => []) ++
  [("recommendedReplacement", .str t.recommendedReplacement),
   ("remarks", .str t.remarks), ("imageUrl", .str t.imageUrl)]

/-- Lookup in the dumped dictionary. -/
def dictGet (d : List (String × Cell)) (k : String) : Option Cell :=
  (d.find? (fun kv => kv.1 == k)).map (fun kv => kv.2)

/-- The dictionary the create operation positions against the header: the
dump, then the price column name set to empty text (the dump never contains
that key, since the dump's keys are the English field names), then the
identifier column name set to the new identifier. -/
def toolDictForSheet (t : ToolBase) (newId : String) : List (String × Cell) :=
  toolDump t ++ [("購入価格", .str ""), ("工具治具ID", .str newId)]

/-- The create operation given the freshly generated identifier: position
the dictionary's values by the current header (columns without a matching
key get empty text), append that row, and build the response solely from
the request body, the new identifier and its QR encoding. -/
def createTool (qrEnc : Cell → String) (sh : Sheet) (t : ToolBase) (newId : String) :
    Tool × Sheet :=
  let d := toolDictForSheet t newId
  let vals := sh.header.map (fun col => (dictGet d col).getD (.str ""))
  let sh2 : Sheet := { sh with rows := sh.rows ++ [vals] }
  ({ id := newId, name := t.name, modelNumber := t.modelNumber, type := t.type
     storageLocation := t.storageLocation, status := t.status
     purchaseDate := t.purchaseDate
     purchasePrice := some (t.purchasePrice.getD 0)
     recommendedReplacement := t.recommendedReplacement, remarks := t.remarks
     imageUrl := t.imageUrl, qr_code_base64 := qrEnc (.str newId) }, sh2)

/-- The create endpoint: framework validation of the body, then the handler
with the generated identifier; a validation failure touches no row. -/
def createToolEndpoint (qrEnc : Cell → String) (sh : Sheet) (p : RawPayload)
    (newId : String) : Except ApiError Tool × Sheet :=
  match validateToolBase p with
  | .error _ => (.error .validation, sh)
  | .ok t =>
    let r := createTool qrEnc sh t newId
    (.ok r.1, r.2)

/-- The row-search loop of the status update: index of the first record
whose identifier value equals the requested identifier as text (records are
numericised, so a numeric identifier cell never equals a text identifier). -/
def findToolRow (header : List String) (rows : List (List Cell)) (toolId : String) :
    Option Nat :=
  scanIdx (fun r => decide (recordGet header r "工具治具ID" = some (.str toolId))) 0 rows

/-- Fresh lookup of the status column in the current header: 0-based index
of the first occurrence, nothing when the column is absent. -/
def statusColIdx (header : List String) : Option Nat :=
  scanIdx (fun c => decide (c = "状態")) 0 header

/-- Coercion a string field of the response model accepts: a text value;
an absent value or a numeric value is a validation failure. -/
def asStr : Option Cell → Except Unit String
  | some (.str s) => .ok s
  | _ => .error ()

/-- Building the response model instance from a re-read record, as the
status update does after its write: every string field must be text, the
status must be one of the four literals, the price goes through the read
normalization; any failure is an exception caught as an internal error. -/
def toolOfRecord (qrEnc : Cell → String) (header : List String) (row : List Cell)
    (toolId : String) : Except Unit Tool := do
  let idv ← asStr (recordGet header row "工具治具ID")
  let namev ← asStr (recordGet header row "名称")
  let modelv ← asStr (recordGet header row "型番品番")
  let typev ← asStr (recordGet header row "種類")
  let locv ← asStr (recordGet header row "保管場所")
  let statusv ← asStr (recordGet header row "状態")
  if validStatus statusv then do
    let datev ← asStr (recordGet header row "購入日")
    let pricev ← readPrice (recordGet header row "購入価格")
    let recv ← asStr (recordGet header row "推奨交換時期")
    let remv ← asStr (recordGet header row "備考")
    let imgv ← asStr (recordGet header row "画像URL")
    Except.ok
      { id := idv, name := namev, modelNumber := modelv, type := typev
        storageLocation := locv, status := statusv, purchaseDate := datev
        purchasePrice := some pricev, recommendedReplacement := recv
        remarks := remv, imageUrl := imgv, qr_code_base64 := qrEnc (.str toolId) }
  else Except.error ()

/-- The read-back after the cell write: find the record with the requested
identifier in the re-read records and build the response model from it; a
missing record or a model failure surfaces as an internal error. -/
def buildUpdatedTool (qrEnc : Cell → String) (sh2 : Sheet) (toolId : String) :
    Except ApiError Tool :=
  match sh2.rows.find?
      (fun r => decide (recordGet sh2.header r "工具治具ID" = some (.str toolId))) with
  | none => .error .internal
  | some row =>
    match toolOfRecord qrEnc sh2.header row toolId with
    | .ok t => .ok t
    | .error _ => .error .internal

/-- The status-update handler: scan the current records for the identifier
(absent: not found, nothing written); resolve the status column fresh from
the current header (absent: schema mismatch, nothing written); write the one
cell at the found row and column; then re-read and return the updated
item. -/
def updateToolStatus (qrEnc : Cell → String) (sh : Sheet) (toolId newStatus : String) :
    Except ApiError Tool × Sheet :=
  match findToolRow sh.header sh.rows toolId with
  | none => (.error .notFound, sh)
  | some i =>
    match statusColIdx sh.header with
    | none => (.error .schemaMismatch, sh)
    | some ci =>
      let sh2 := Sheet.updateDataCell sh (i + 2) (ci + 1) (.str newStatus)
      (buildUpdatedTool qrEnc sh2 toolId, sh2)

/-- The status-update endpoint: framework validation of the body's status
literal, then the handler; a validation failure touches nothing. -/
def updateStatusEndpoint (qrEnc : Cell → String) (sh : Sheet)
    (toolId rawStatus : String) : Except ApiError Tool × Sheet :=
  if validStatus rawStatus then updateToolStatus qrEnc sh toolId rawStatus
  else (.error .validation, sh)

/-- The shape of a generated identifier candidate, the timestamp and random
suffix drawn from oracle streams indexed by the attempt number. -/
def candidateId (ts rand : Nat → String) (n : Nat) : String :=
  "TOOL-" ++ ts n ++ "-" ++ rand n

/-- The identifier generation loop of the create operation: take successive
candidates until one avoids the existing identifiers; terminates because
some candidate is fresh. -/
def generateToolId (existing : List String) (ts rand : Nat → String)
    (h : ∃ n, candidateId ts rand n ∉ existing) : String :=
  candidateId ts rand (Nat.find h)

/-- N sequential runs of the generator, each against the base identifiers
plus everything generated so far, each run drawing from its own oracle
streams. -/
def genSeq (tss rands : Nat → Nat → String)
    (hs : ∀ i (l : List String), ∃ n, candidateId (tss i) (rands i) n ∉ l)
    (existing : List String) : Nat → List String
  | 0 => []
  | k + 1 =>
    let prev := genSeq tss rands hs existing k
    prev ++ [generateToolId (existing ++ prev) (tss k) (rands k) (hs k (existing ++ prev))]

/-! Concrete fixtures for witnesses and counterexamples. -/

/-- A concrete stand-in for the external QR encoder. -/
def qr0 : Cell → String := fun _ => ""

/-- The full known column set of the store, in its standard order:
identifier, name, model number, kind, storage location, status, purchase
date, purchase price, recommended replacement, remarks, image URL. -/
def standardHeader : List String :=
  ["工具治具ID", "名称", "型番品番", "種類", "保管場所", "状態", "購入日",
   "購入価格", "推奨交換時期", "備考", "画像URL"]

/-- The create payload of the end-to-end scenario: a press jig in stock. -/
def pressJig : ToolBase :=
  { name := "Press Jig", modelNumber := "PJ-1", type := "jig"
    storageLocation := "Plant1", status := "在庫", purchaseDate := ""
    purchasePrice := none, recommendedReplacement := "", remarks := ""
    imageUrl := "" }

/-- A well-formed data row for the standard header. -/
def rowA : List Cell :=
  [.str "TOOL-A", .str "Jig A", .str "MA", .str "jig", .str "P1", .str "在庫",
   .str "2023-01-01", .str "1500", .str "", .str "", .str ""]

/-- A second well-formed data row for the standard header. -/
def rowB : List Cell :=
  [.str "TOOL-B", .str "Jig B", .str "MB", .str "jig", .str "P2", .str "貸出中",
   .str "", .str "", .str "", .str "", .str ""]

/-- A row whose identifier cell is empty. -/
def rowNoId : List Cell :=
  [.str "", .str "ghost", .str "", .str "", .str "", .str "在庫", .str "",
   .str "", .str "", .str "", .str ""]

/-- A row with a valid identifier but a non-numeric price cell. -/
def rowBadPrice : List Cell :=
  [.str "TOOL-C", .str "Jig C", .str "MC", .str "jig", .str "P1", .str "在庫",
   .str "", .str "unknown", .str "", .str "", .str ""]

/-- The empty store under the standard header. -/
def emptySheet : Sheet := ⟨standardHeader, []⟩

/-- A store holding the two well-formed rows and the identifier-less row. -/
def mixedSheet : Sheet := ⟨standardHeader, [rowNoId, rowA, rowB]⟩

/-- A store holding one well-formed row. -/
def oneRowSheet : Sheet := ⟨standardHeader, [rowA]⟩

/-- A store whose only identifier-bearing row has a non-numeric price. -/
def badPriceSheet : Sheet := ⟨standardHeader, [rowBadPrice]⟩

/-! Claim theorems. -/

/-- Claim C1 (code bug exhibit): creating the press-jig item against the
standard header writes a row that is blank in every column except the
identifier — the dump's keys are the English field names while the header
is the store vocabulary — so listing the store afterwards returns an item
whose name and every other payload field came back empty, and the round
trip of the record mapper loses the payload. -/
theorem create_drops_fields_bug :
    (createTool qr0 emptySheet pressJig "TOOL-X").2.rows =
      [[Cell.str "TOOL-X", .str "", .str "", .str "", .str "", .str "",
        .str "", .str "", .str "", .str "", .str ""]] ∧
    getAllTools qr0 (createTool qr0 emptySheet pressJig "TOOL-X").2 =
      .ok [{ id := some (.str "TOOL-X"), name := some (.str "")
             modelNumber := some (.str ""), type := some (.str "")
             storageLocation := some (.str ""), status := some (.str "")
             purchaseDate := some (.str ""), purchasePrice := 0
             recommendedReplacement := some (.str ""), remarks := some (.str "")
             imageUrl := some (.str ""), qr_code_base64 := "" }] ∧
    pressJig.name = "Press Jig" := by
  refine ⟨rfl, rfl, rfl⟩

/-- Claim C10: the create operation's response is built solely from the
validated request body, the freshly generated identifier and its QR
encoding: it is the same whatever store the operation ran against, and its
fields are exactly the body's fields (a null price surfacing as the model's
zero default), never re-read from the appended row. -/
theorem create_response_from_payload_only (qrEnc : Cell → String) (sh1 sh2 : Sheet)
    (t : ToolBase) (newId : String) :
    (createTool qrEnc sh1 t newId).1 = (createTool qrEnc sh2 t newId).1 ∧
    (createTool qrEnc sh1 t newId).1 =
      { id := newId, name := t.name, modelNumber := t.modelNumber, type := t.type
        storageLocation := t.storageLocation, status := t.status
        purchaseDate := t.purchaseDate
        purchasePrice := some (t.purchasePrice.getD 0)
        recommendedReplacement := t.recommendedReplacement, remarks := t.remarks
        imageUrl := t.imageUrl, qr_code_base64 := qrEnc (.str newId) } :=
  ⟨rfl, rfl⟩

/-- A create body that is valid except that its purchase date is not of the
form YYYY-MM-DD. -/
def badDatePayload : RawPayload :=
  { name := some "Press Jig", modelNumber := some "PJ-1", type := some "jig"
    storageLocation := some "Plant1", status := some "在庫"
    purchaseDate := some "2023/13/99", purchasePrice := none
    recommendedReplacement := none, remarks := none, imageUrl := none }

/-- A create body with every required field but no status. -/
def noStatusPayload : RawPayload :=
  { name := some "X", modelNumber := some "M", type := some "t"
    storageLocation := some "L", status := none, purchaseDate := none
    purchasePrice := none, recommendedReplacement := none, remarks := none
    imageUrl := none }

/-- Claim C8 (counterexample): a create request whose purchaseDate is
present but malformed is accepted, and a row is appended to the store — the
claimed rejection does not happen. -/
theorem date_format_not_validated :
    (createToolEndpoint qr0 emptySheet badDatePayload "TOOL-X").1.isOk = true ∧
    (createToolEndpoint qr0 emptySheet badDatePayload "TOOL-X").2.rows.length = 1 :=
  ⟨rfl, rfl⟩

/-- Claim C8 (amended): the create validation performs no purchaseDate
format check at all — its outcome depends only on the presence of the
required fields and on the status literal, never on the purchase date. -/
theorem create_validation_ignores_date (p : RawPayload) :
    (validateToolBase p).isOk =
      (p.name.isSome && p.modelNumber.isSome && p.type.isSome &&
       p.storageLocation.isSome && (p.status.map validStatus).getD false) := by
  rcases p with ⟨n, m, ty, loc, st, d, pr, rr, rm, iu⟩
  cases n <;> cases m <;> cases ty <;> cases loc <;> cases st <;>
    first
    | rfl
    | (rename_i s
       cases hv : validStatus s <;>
         simp [validateToolBase, requireField, Except.isOk, Except.toBool, hv,
               Bind.bind, Except.bind])

/-- Claim C9 (counterexample): a create request in which the status field
is unspecified is rejected with a validation error and creates nothing —
it does not succeed with the in-stock default the claim describes. -/
theorem status_unspecified_rejected :
    createToolEndpoint qr0 emptySheet noStatusPayload "TOOL-X" =
      (.error .validation, emptySheet) :=
  rfl

/-- Claim C9 (amended): status is a required field of the create body — any
request leaving it unspecified fails validation. -/
theorem status_required_at_creation (p : RawPayload) (h : p.status = none) :
    validateToolBase p = .error () := by
  rcases p with ⟨n, m, ty, loc, st, d, pr, rr, rm, iu⟩
  subst h
  cases n <;> cases m <;> cases ty <;> cases loc <;> rfl

/-- Claim C9 (witness): the amended statement at the concrete no-status
payload. -/
theorem status_required_at_creation_witness :
    validateToolBase noStatusPayload = .error () :=
  status_required_at_creation noStatusPayload rfl

/-- A scan over a list on which the predicate never holds finds nothing. -/
theorem scanIdx_eq_none {α : Type} (p : α → Bool) :
    ∀ (l : List α) (i : Nat), (∀ x ∈ l, p x = false) → scanIdx p i l = none
  | [], _, _ => rfl
  | x :: xs, i, h => by
    have hx := h x (List.mem_cons_self x xs)
    simp only [scanIdx, hx, Bool.false_eq_true, if_false]
    exact scanIdx_eq_none p xs (i + 1) (fun y hy => h y (List.mem_cons_of_mem x hy))

/-- Claim C2: a status update whose status value is outside the four
enumerated literals is rejected by validation with the store untouched,
before the handler runs; a status value among the four passes validation
and the request reaches the handler unchanged. -/
theorem status_enum_enforcement (qrEnc : Cell → String) (sh : Sheet)
    (toolId s : String) :
    (s ∉ statusValues →
      updateStatusEndpoint qrEnc sh toolId s = (.error .validation, sh)) ∧
    (s ∈ statusValues →
      updateStatusEndpoint qrEnc sh toolId s = updateToolStatus qrEnc sh toolId s) := by
  constructor
  · intro h
    have hv : validStatus s = false := by
      simp [validStatus, List.elem_iff]
      exact h
    simp [updateStatusEndpoint, hv]
  · intro h
    have hv : validStatus s = true :=
      List.elem_iff.mpr h
    simp [updateStatusEndpoint, hv]

/-- Claim C2 (witness): a concrete out-of-enum status value is rejected
with the one-row store left as it was. -/
theorem status_enum_enforcement_witness :
    updateStatusEndpoint qr0 oneRowSheet "TOOL-A" "lost" =
      (.error .validation, oneRowSheet) :=
  (status_enum_enforcement qr0 oneRowSheet "TOOL-A" "lost").1 (by decide)

/-- Claim C5: a status update whose identifier matches no record of the
current store signals not-found and returns the store exactly as it was —
no cell is written. -/
theorem update_unknown_id_not_found (qrEnc : Cell → String) (sh : Sheet)
    (toolId s : String)
    (h : ∀ r ∈ sh.rows, recordGet sh.header r "工具治具ID" ≠ some (.str toolId)) :
    updateToolStatus qrEnc sh toolId s = (.error .notFound, sh) := by
  have hf : findToolRow sh.header sh.rows toolId = none := by
    unfold findToolRow
    exact scanIdx_eq_none _ sh.rows 0 (fun r hr => by simp [h r hr])
  simp [updateToolStatus, hf]

/-- Claim C5 (witness): updating a nonexistent identifier against the
one-row store yields not-found and the unchanged store. -/
theorem update_unknown_id_not_found_witness :
    updateToolStatus qr0 oneRowSheet "TOOL-ZZZ" "貸出中" =
      (.error .notFound, oneRowSheet) :=
  update_unknown_id_not_found qr0 oneRowSheet "TOOL-ZZZ" "貸出中" (by decide)

/-- Claim C6: once the requested identifier is found, the status column is
resolved fresh from the current header: if the column is absent the update
fails as a schema mismatch with the store untouched, and whenever the
column is found at an index the store is changed by exactly the one cell
write at the found row and that freshly resolved column. -/
theorem status_update_schema_handling (qrEnc : Cell → String) (sh : Sheet)
    (toolId s : String) (i : Nat)
    (hfound : findToolRow sh.header sh.rows toolId = some i) :
    ((∀ c ∈ sh.header, c ≠ "状態") →
      updateToolStatus qrEnc sh toolId s = (.error .schemaMismatch, sh)) ∧
    (∀ ci, statusColIdx sh.header = some ci →
      (updateToolStatus qrEnc sh toolId s).2 =
        sh.updateDataCell (i + 2) (ci + 1) (.str s)) := by
  constructor
  · intro habs
    have hc : statusColIdx sh.header = none :=
      scanIdx_eq_none _ sh.header 0 (fun c hc => by simp [habs c hc])
    simp [updateToolStatus, hfound, hc]
  · intro ci hci
    simp [updateToolStatus, hfound, statusColIdx] at hci ⊢
    simp [hci]

/-- Claim C6 (witness): on the one-row store the update writes exactly the
cell at sheet row 2 (first data row) and sheet column 6 (the status
column's fresh position in the standard header). -/
theorem status_update_schema_handling_witness :
    (updateToolStatus qr0 oneRowSheet "TOOL-A" "貸出中").2 =
      oneRowSheet.updateDataCell 2 6 (.str "貸出中") :=
  (status_update_schema_handling qr0 oneRowSheet "TOOL-A" "貸出中" 0
    (by decide)).2 5 (by decide)

/-- Claim C7 (counterexample): a present, non-blank, non-numeric price cell
does not normalize to zero — the read of that value fails (the uncaught
conversion error of the source), refuting the claim that the read never
fails on account of the price cell's contents. -/
theorem price_read_fails_on_text :
    readPrice (recordGet ["購入価格"] [.str "unknown"] "購入価格") = .error () :=
  rfl

/-- Claim C7 (amended): the price normalization on read is total only on
blank or numeric cells: a blank cell reads as zero, a cell in Python's
numeric string syntax reads as its parsed value, and a non-blank ASCII cell
that neither parses as a number nor spells a non-finite float makes the
read fail instead of normalizing to zero. -/
theorem price_normalization (s : String) :
    (s = "" → readPrice (some (numericiseCell (.str s))) = .ok 0) ∧
    (∀ q, parseDec s = some q → readPrice (some (numericiseCell (.str s))) = .ok q) ∧
    (s ≠ "" → surelyNonNumeric s = true →
      readPrice (some (numericiseCell (.str s))) = .error ()) := by
  refine ⟨?_, ?_, ?_⟩
  · intro hs
    subst hs
    rfl
  · intro q hq
    by_cases hz : q = 0
    · subst hz
      simp [numericiseCell, hq, readPrice, cellTruthy]
    · simp [numericiseCell, hq, readPrice, cellTruthy, hz, floatOfCell]
  · intro hs hsn
    have h2 : (parseDec s).isNone = true := by
      simp only [surelyNonNumeric, Bool.and_eq_true] at hsn
      exact hsn.1.2
    have hq : parseDec s = none := Option.isNone_iff_eq_none.mp h2
    simp [numericiseCell, hq, readPrice, cellTruthy, hs, floatOfCell]

/-- Claim C7 (witness): the amended statement at concrete cells — a blank
cell reads as zero, the numeric cells 1500, with leading whitespace, and in
exponent form read as their values, and the text cell holding the word
unknown fails. -/
theorem price_normalization_witness :
    readPrice (some (numericiseCell (.str ""))) = .ok 0 ∧
    readPrice (some (numericiseCell (.str "1500"))) = .ok 1500 ∧
    readPrice (some (numericiseCell (.str " 1500"))) = .ok 1500 ∧
    readPrice (some (numericiseCell (.str "1e3"))) = .ok 1000 ∧
    readPrice (some (numericiseCell (.str "unknown"))) = .error () :=
  ⟨(price_normalization "").1 rfl,
   (price_normalization "1500").2.1 1500 (by decide),
   (price_normalization " 1500").2.1 1500 (by decide),
   (price_normalization "1e3").2.1 1000 (by decide),
   (price_normalization "unknown").2.2 (by decide) (by decide)⟩

/-- Claim C4 (counterexample): the listing does not always return the rows
with truthy identifiers — on a store whose single identifier-bearing row has
a non-numeric price cell the whole listing fails instead of yielding that
row, refuting the claim for every sequence of store rows. -/
theorem listing_fails_on_bad_price_cell :
    idTruthy standardHeader rowBadPrice = true ∧
    getAllTools qr0 badPriceSheet = .error () :=
  ⟨rfl, rfl⟩

/-- Claim C4 (amended): as long as every row with a truthy identifier cell
formats without failure (in particular its price cell is blank or numeric),
the listing returns exactly the rows whose identifier value is present and
truthy, in store order, silently omitting the rest, each mapped by the loop
body. -/
theorem listing_skips_blank_id_rows (qrEnc : Cell → String) (sh : Sheet)
    (h : ∀ r ∈ sh.rows, idTruthy sh.header r = true →
      (listLoopBody qrEnc sh.header r).isOk = true) :
    ∃ l, getAllTools qrEnc sh = .ok l ∧
      List.Forall₂ (fun r f => listLoopBody qrEnc sh.header r = .ok f)
        (sh.rows.filter (idTruthy sh.header)) l := by
  obtain ⟨hdr, rows⟩ := sh
  simp only [getAllTools] at h ⊢
  induction rows with
  | nil => exact ⟨[], rfl, List.Forall₂.nil⟩
  | cons r rs ih =>
    obtain ⟨l, hl, hf⟩ := ih (fun x hx hxt => h x (List.mem_cons_of_mem r hx) hxt)
    by_cases ht : idTruthy hdr r = true
    · have hok := h r (List.mem_cons_self r rs) ht
      obtain ⟨f, hfeq⟩ : ∃ f, listLoopBody qrEnc hdr r = .ok f := by
        revert hok
        cases listLoopBody qrEnc hdr r <;> simp [Except.isOk, Except.toBool]
      refine ⟨f :: l, ?_, ?_⟩
      · simp [getAllToolsGo, ht, hfeq, hl, Bind.bind, Except.bind]
      · rw [List.filter_cons_of_pos ht]
        exact List.Forall₂.cons hfeq hf
    · refine ⟨l, ?_, ?_⟩
      · simpa [getAllToolsGo, ht] using hl
      · rw [List.filter_cons_of_neg (by simpa using ht)]
        exact hf

/-- Claim C4 (witness): the amended statement on the concrete store holding
one identifier-less row and two well-formed rows. -/
theorem listing_skips_blank_id_rows_witness :
    ∃ l, getAllTools qr0 mixedSheet = .ok l ∧
      List.Forall₂ (fun r f => listLoopBody qr0 mixedSheet.header r = .ok f)
        (mixedSheet.rows.filter (idTruthy mixedSheet.header)) l :=
  listing_skips_blank_id_rows qr0 mixedSheet (by decide)

/-- A run of the letter a, used as a concrete timestamp oracle. -/
def aRun (n : Nat) : String := String.mk (List.replicate n 'a')

/-- A concrete random-suffix oracle. -/
def rdW : Nat → String := fun _ => "x"

/-- Length of a run of the letter a. -/
theorem aRun_len (n : Nat) : (aRun n).length = n := by
  simp [aRun, String.length]

/-- The concrete oracle always offers a candidate outside any given finite
set: a candidate longer than the sum of the lengths of the set's members. -/
theorem freshW (l : List String) : ∃ n, candidateId aRun rdW n ∉ l := by
  refine ⟨(l.map String.length).sum + 1, fun hmem => ?_⟩
  have h2 : (candidateId aRun rdW ((l.map String.length).sum + 1)).length ∈
      l.map String.length :=
    List.mem_map_of_mem String.length hmem
  have h3 : (candidateId aRun rdW ((l.map String.length).sum + 1)).length ≤
      (l.map String.length).sum :=
    List.single_le_sum (fun x _ => Nat.zero_le x) _ h2
  have h4 : (candidateId aRun rdW ((l.map String.length).sum + 1)).length =
      (l.map String.length).sum + 8 := by
    have h5 : ("TOOL-" : String).length = 5 := rfl
    have h6 : ("-" : String).length = 1 := rfl
    have h7 : ("x" : String).length = 1 := rfl
    simp [candidateId, rdW, String.length_append, aRun_len, h5, h6, h7]
    omega
  omega

/-- The concrete oracle family for the sequential generator. -/
def tssW : Nat → Nat → String := fun _ => aRun

/-- The concrete random family for the sequential generator. -/
def rdsW : Nat → Nat → String := fun _ _ => "x"

/-- The concrete oracle family is fresh against every finite set. -/
theorem freshWs : ∀ i (l : List String), ∃ n, candidateId (tssW i) (rdsW i) n ∉ l :=
  fun _ l => freshW l

/-- Claim C3: the generated identifier is a candidate of the form
TOOL-timestamp-suffix drawn from the oracle streams and is never a member
of the existing identifiers (colliding candidates are passed over); and N
sequential runs of the generator, each excluding the base identifiers plus
everything generated so far, yield N identifiers with no duplicate. -/
theorem id_generation (existing : List String) (ts rand : Nat → String)
    (h : ∃ n, candidateId ts rand n ∉ existing) :
    (generateToolId existing ts rand h ∉ existing ∧
     ∃ n, generateToolId existing ts rand h = "TOOL-" ++ ts n ++ "-" ++ rand n) ∧
    ∀ (tss rands : Nat → Nat → String)
      (hs : ∀ i (l : List String), ∃ n, candidateId (tss i) (rands i) n ∉ l)
      (base : List String) (N : Nat),
      (genSeq tss rands hs base N).length = N ∧ (genSeq tss rands hs base N).Nodup := by
  constructor
  · exact ⟨Nat.find_spec h, Nat.find h, rfl⟩
  · intro tss rands hs base N
    induction N with
    | zero => exact ⟨rfl, List.nodup_nil⟩
    | succ k ih =>
      obtain ⟨hlen, hnd⟩ := ih
      have hfresh :
          generateToolId (base ++ genSeq tss rands hs base k) (tss k) (rands k)
              (hs k (base ++ genSeq tss rands hs base k)) ∉
            base ++ genSeq tss rands hs base k :=
        Nat.find_spec (hs k (base ++ genSeq tss rands hs base k))
      constructor
      · simp [genSeq, hlen]
      · simp only [genSeq]
        rw [List.nodup_append]
        refine ⟨hnd, List.nodup_singleton _, ?_⟩
        rw [List.disjoint_singleton]
        exact fun hmem => hfresh (List.mem_append_right base hmem)

/-- Claim C3 (witness): the generation statement at the concrete oracles —
the generated identifier avoids the one-element existing set and has the
candidate form, and five sequential runs yield five pairwise distinct
identifiers. -/
theorem id_generation_witness :
    (generateToolId ["TOOL-a-x"] aRun rdW (freshW ["TOOL-a-x"]) ∉ ["TOOL-a-x"] ∧
     ∃ n, generateToolId ["TOOL-a-x"] aRun rdW (freshW ["TOOL-a-x"]) =
       "TOOL-" ++ aRun n ++ "-" ++ rdW n) ∧
    ((genSeq tssW rdsW freshWs ["SEED-1"] 5).length = 5 ∧
     (genSeq tssW rdsW freshWs ["SEED-1"] 5).Nodup) :=
  ⟨(id_generation ["TOOL-a-x"] aRun rdW (freshW ["TOOL-a-x"])).1,
   (id_generation ["TOOL-a-x"] aRun rdW (freshW ["TOOL-a-x"])).2
     tssW rdsW freshWs ["SEED-1"] 5⟩

end ToolMgmt
